import Mathlib

/-!
Shallow embedding of `RSBagReader`
(`cpp/open3d/t/io/sensor/realsense/RSBagReader.cpp`): a bounded
single-producer / single-consumer ring buffer decoupling a RealSense bag
playback source from a blocking `NextFrame` consumer API.

Modelling conventions:
- `head_fid_` / `tail_fid_` are `uint64_t` counters in the source; both are
  only ever incremented by one under a window guard, so they are modelled as
  `Nat` (no wraparound is reachable within the guarded window discipline).
- The ring `frame_buffer_` and the parallel `frame_position_us_` array are
  modelled as total functions from slot index; all source accesses index
  them modulo `capacity` exactly as the code does.
- The two fields `accepted` and `returned` are history (ghost) variables
  recording, in order, the frames the producer has written into the ring
  and the frames `NextFrame` has handed to the caller; they instrument the
  code's behaviour and are never read by any modelled operation.
- `utility::LogError` does not return to its caller (compare
  `GetMetadataJson`, which dereferences the active profile right after an
  unguarded `LogError` on a closed reader); it is modelled as `Except.error`.
  `utility::LogWarning` returns normally.
- The environment a call consumes (whether `pipe_->start` succeeds, the
  metadata derived from the file, the frames the source delivers, the
  playback position) is passed as explicit parameters.
-/

/-- One frameset as stored in the ring: the device colour-frame sequence
number (`get_frame_number()`) together with the decoded colour and depth
payloads (opaque here). -/
structure Frame where
  fid : Nat
  color : Nat
  depth : Nat
  deriving DecidableEq

instance : Inhabited Frame := ⟨⟨0, 0, 0⟩⟩

/-- The reader state: ring storage, position counters, session flags and
metadata, the producer's duplicate-tracking id, plus the two history
variables. -/
structure RSBagReader where
  capacity : Nat
  frame_buffer : Nat → Frame
  frame_position_us : Nat → Nat
  head_fid : Nat
  tail_fid : Nat
  is_opened : Bool
  is_eof : Bool
  dev_color_fid : Nat
  stream_length_usec : Nat
  fps : Nat
  filename : String
  producer_start_us : Nat
  accepted : List Frame
  returned : List Frame

namespace RSBagReader

/-- `RSBagReader::RSBagReader(size_t buffer_size)`: ring and timestamp
array sized once at construction; session fields at their defaults. -/
def mkReader (buffer_size : Nat) : RSBagReader :=
  { capacity := buffer_size
    frame_buffer := fun _ => default
    frame_position_us := fun _ => 0
    head_fid := 0
    tail_fid := 0
    is_opened := false
    is_eof := false
    dev_color_fid := 0
    stream_length_usec := 0
    fps := 0
    filename := ""
    producer_start_us := 0
    accepted := []
    returned := [] }

/-- `RSBagReader::IsEOF()`: `return is_eof_ && tail_fid_ == head_fid_;`. -/
def IsEOF (s : RSBagReader) : Bool :=
  s.is_eof && decide (s.tail_fid = s.head_fid)

/-- `UINT64_MAX`, the sentinel `GetTimestamp` returns on a closed reader. -/
def UINT64_MAX : Nat := 2 ^ 64 - 1

/-- `RSBagReader::GetTimestamp()`: `UINT64_MAX` when not open, `0` before
the first consumed frame, otherwise the stored position of the most
recently consumed frame (slot `(tail_fid_ - 1) % size`). -/
def GetTimestamp (s : RSBagReader) : Nat :=
  if s.is_opened = false then UINT64_MAX
  else if s.tail_fid = 0 then 0
  else s.frame_position_us ((s.tail_fid - 1) % s.capacity)

/-- The branch of `RSBagReader::NextFrame()` after the spin wait at lines
251-256 has exited (the wait spins exactly while
`!is_eof_ && tail_fid_ == head_fid_`): either the "no more frames"
sentinel (a default `RGBDImage`, modelled `none`) with no state change, or
the frame in slot `tail_fid_ % size` with `tail_fid_` post-incremented.
The history variable `returned` records the handed-out frame. -/
def NextFrame (s : RSBagReader) : Option Frame × RSBagReader :=
  if s.is_eof = true ∧ s.tail_fid = s.head_fid then
    (none, s)
  else
    (some (s.frame_buffer (s.tail_fid % s.capacity)),
      { s with
        tail_fid := s.tail_fid + 1
        returned := s.returned ++ [s.frame_buffer (s.tail_fid % s.capacity)] })

/-- `RSBagReader::NextFrame()` including its entry guard: on a closed
reader it raises via `utility::LogError("Null file handler. ...")` (which
does not return), modelled as `Except.error`; on an open reader it
proceeds to the wait-and-read body. -/
def NextFrameChecked (s : RSBagReader) : Except String (Option Frame × RSBagReader) :=
  if s.is_opened = false then
    Except.error "Null file handler. Please call Open()."
  else
    Except.ok (NextFrame s)

/-- `RSBagReader::Close()`: clears `filename_`, clears the open flag,
notifies and joins the producer thread and stops the pipe (thread-control
effects with no further field changes). -/
def Close (s : RSBagReader) : RSBagReader :=
  { s with filename := "", is_opened := false }

/-- The preamble of `RSBagReader::fill_frame_buffer(start_time_us)`
(lines 168-175): seek the playback device to the start offset and reset
`head_fid_`, `tail_fid_` and the duplicate-tracking id to zero.  The
history of the fresh session starts empty. -/
def producer_start (s : RSBagReader) (start_time_us : Nat) : RSBagReader :=
  { s with
    producer_start_us := start_time_us
    head_fid := 0
    tail_fid := 0
    dev_color_fid := 0
    accepted := []
    returned := [] }

/-- Environment consumed by `Open`: whether `pipe_->start(cfg)` succeeds
(otherwise an `rs2::error` is caught and `Open` returns `false`), and the
metadata `GetMetadataJson` derives from the file. -/
structure OpenEnv where
  pipe_start_ok : Bool
  stream_length_usec : Nat
  fps : Nat
  deriving DecidableEq

/-- `RSBagReader::Open(filename, start_time_us)`: close first if already
open; try to start the pipe, returning `false` on failure; on success set
the session fields, derive metadata, and launch the producer thread
(whose preamble `producer_start` resets the counters). -/
def Open (s : RSBagReader) (fname : String) (start_time_us : Nat) (env : OpenEnv) :
    Bool × RSBagReader :=
  let s1 := if s.is_opened then Close s else s
  if env.pipe_start_ok then
    (true,
      producer_start
        { s1 with
          filename := fname
          is_eof := false
          is_opened := true
          stream_length_usec := env.stream_length_usec
          fps := env.fps }
        start_time_us)
  else
    (false, s1)

/-- `RSBagReader::SeekTimestamp(timestamp)`: warn and return `false` when
not open; warn and return `false` when `timestamp >= stream_length_usec_`;
otherwise call `Open(rs_device.file_name(), timestamp)` — discarding its
result — and return `true`. -/
def SeekTimestamp (s : RSBagReader) (timestamp : Nat) (env : OpenEnv) :
    Bool × RSBagReader :=
  if s.is_opened = false then (false, s)
  else if s.stream_length_usec ≤ timestamp then (false, s)
  else (true, (Open s s.filename timestamp env).2)

/-- The inner repeat-skipping loop of `fill_frame_buffer` (lines 183-190):
pull framesets while the pulled sequence id is not strictly greater than
`dev_color_fid`; the list argument is the succession of framesets
`try_wait_for_frames` delivers, its end being the timeout.  Returns the
first strictly newer frameset, or `none` on timeout. -/
def resolvePull (dev_color_fid : Nat) : List Frame → Option Frame
  | [] => none
  | f :: rest =>
    if dev_color_fid < f.fid then some f else resolvePull dev_color_fid rest

/-- The acceptance branch of `fill_frame_buffer` (lines 192-216): store
the aligned frame in slot `head_fid_ % size`, store the device position
(nanoseconds, converted to microseconds by `/ 1000`) in the parallel
array, update the duplicate-tracking id, increment `head_fid_`. -/
def accept_frame (s : RSBagReader) (f : Frame) (pos_ns : Nat) : RSBagReader :=
  { s with
    frame_buffer := Function.update s.frame_buffer (s.head_fid % s.capacity) f
    frame_position_us :=
      Function.update s.frame_position_us (s.head_fid % s.capacity) (pos_ns / 1000)
    dev_color_fid := f.fid
    head_fid := s.head_fid + 1
    accepted := s.accepted ++ [f] }

/-- One iteration of the filling loop body (lines 182-221): skip repeats,
then either accept the strictly newer frameset or — when the bounded wait
delivered no newer frameset — set `is_eof_` and return from the thread. -/
def fill_iteration (s : RSBagReader) (pulls : List Frame) (pos_ns : Nat) : RSBagReader :=
  match resolvePull s.dev_color_fid pulls with
  | some f => accept_frame s f pos_ns
  | none => { s with is_eof := true }

/-- The predicate of the `need_frames_.wait` at lines 228-232: the paused
producer remains blocked exactly while this is `false` and can resume only
on a wake where it is `true`.  `BUFFER_REFILL_FACTOR` is a class constant
declared in the header; it is left as a parameter here. -/
def need_frames_pred (s : RSBagReader) (refill_factor : Nat) : Bool :=
  !s.is_opened || decide (s.head_fid < s.tail_fid + s.capacity / refill_factor)

/-- The unrecoverable errors the function-level `try` of
`fill_frame_buffer` catches (lines 234-239). -/
inductive FillError where
  | realsense (failed_function failed_args : String)
  | other (what : String)
  deriving DecidableEq

/-- The catch clauses of `fill_frame_buffer` (lines 234-239): format and
log a diagnostic; no member — in particular not `is_eof_` — is assigned,
and the thread then exits. -/
def fill_frame_buffer_catch (s : RSBagReader) (e : FillError) : RSBagReader × String :=
  match e with
  | FillError.realsense fn args =>
      (s, "Realsense function call " ++ fn ++ "(" ++ args ++ ") error.")
  | FillError.other what =>
      (s, "Error in reading RealSense bag file: " ++ what)

/-- Interleaved small-step semantics of one open session: the producer
accepts a strictly newer frame under the window guard of line 182, or
signals end-of-stream (lines 217-221); the consumer reads-and-increments
(lines 251-262, which happens exactly when the spin wait has exited with
`tail_fid_ ≠ head_fid_`). -/
inductive Step : RSBagReader → RSBagReader → Prop where
  | accept (s : RSBagReader) (f : Frame) (pos_ns : Nat)
      (hopen : s.is_opened = true) (heof : s.is_eof = false)
      (hroom : s.head_fid < s.tail_fid + s.capacity)
      (hnew : s.dev_color_fid < f.fid) :
      Step s (accept_frame s f pos_ns)
  | set_eof (s : RSBagReader)
      (hopen : s.is_opened = true) (heof : s.is_eof = false)
      (hroom : s.head_fid < s.tail_fid + s.capacity) :
      Step s { s with is_eof := true }
  | consume (s : RSBagReader)
      (hopen : s.is_opened = true) (hne : s.tail_fid ≠ s.head_fid) :
      Step s { s with
        tail_fid := s.tail_fid + 1
        returned := s.returned ++ [s.frame_buffer (s.tail_fid % s.capacity)] }

/-- States reachable from `s₀` by interleaved producer/consumer steps. -/
def Reachable (s₀ s : RSBagReader) : Prop :=
  Relation.ReflTransGen Step s₀ s

/-- The state right after `Open` on a fresh reader (a session start). -/
def SessionStart (cap : Nat) (fname : String) (start_time_us : Nat) (env : OpenEnv) :
    RSBagReader :=
  (Open (mkReader cap) fname start_time_us env).2

/-- A sample open session state with one accepted, unconsumed frame. -/
def demoOpen : RSBagReader :=
  { mkReader 16 with
    is_opened := true, stream_length_usec := 1000000, fps := 30, head_fid := 1 }

/-- A sample paused-producer state: buffer full at capacity 4. -/
def pausedDemo : RSBagReader :=
  { mkReader 4 with is_opened := true, head_fid := 4 }

/-- A sample frameset delivered by the source. -/
def pullDemo : Frame := ⟨1, 7, 8⟩

/-- A sample environment in which `pipe_->start` fails. -/
def seekDemoEnvFail : OpenEnv := ⟨false, 1000000, 30⟩

/-- A sample environment in which `pipe_->start` succeeds. -/
def seekDemoEnvOk : OpenEnv := ⟨true, 2000000, 60⟩

/-- Session invariant tying the counters, the ring contents and the two
history variables together: the counter window is within capacity, the
history of accepted frames has length `head`, the returned frames are
exactly the first `tail` accepted ones, every buffered index holds the
frame accepted at that index, accepted device sequence ids are strictly
increasing, and all of them are bounded by the duplicate-tracking id. -/
def Inv (s : RSBagReader) : Prop :=
  s.tail_fid ≤ s.head_fid ∧
  s.head_fid ≤ s.tail_fid + s.capacity ∧
  s.accepted.length = s.head_fid ∧
  s.returned = s.accepted.take s.tail_fid ∧
  (∀ i, s.tail_fid ≤ i → i < s.head_fid →
      s.accepted[i]? = some (s.frame_buffer (i % s.capacity))) ∧
  s.accepted.Pairwise (fun a b => a.fid < b.fid) ∧
  (∀ f ∈ s.accepted, f.fid ≤ s.dev_color_fid)

/-- A sample session start at capacity 16. -/
def demoStart : RSBagReader := SessionStart 16 "capture.bag" 0 seekDemoEnvOk

/-- The sample session after the producer accepted one frame. -/
def demoStep1 : RSBagReader := accept_frame demoStart pullDemo 2000

/-- The sample session after the consumer then read that frame. -/
def demoStep2 : RSBagReader :=
  { demoStep1 with
    tail_fid := demoStep1.tail_fid + 1
    returned := demoStep1.returned
      ++ [demoStep1.frame_buffer (demoStep1.tail_fid % demoStep1.capacity)] }

theorem resolvePull_some_lt (dev : Nat) (pulls : List Frame) (f : Frame)
    (h : resolvePull dev pulls = some f) : dev < f.fid := by
  induction pulls with
  | nil => simp [resolvePull] at h
  | cons g rest ih =>
    by_cases hg : dev < g.fid
    · simp [resolvePull, hg] at h
      exact h ▸ hg
    · simp [resolvePull, hg] at h
      exact ih h

/-- C3: in one producer-loop iteration, a pulled frameset whose device
sequence id is not strictly greater than the last accepted id is discarded
with no effect on the resulting state; a strictly newer frameset is
accepted — written to slot `head mod capacity` with its (microsecond)
timestamp, `head` incremented; and when the bounded wait yields no newer
frameset, `is_eof` is set with no other change and the loop exits. -/
theorem fill_iteration_spec (s : RSBagReader) (pulls : List Frame) (pos_ns : Nat) :
    (∀ g rest, g.fid ≤ s.dev_color_fid →
        fill_iteration s (g :: rest) pos_ns = fill_iteration s rest pos_ns) ∧
    (∀ f, resolvePull s.dev_color_fid pulls = some f →
        s.dev_color_fid < f.fid ∧
        fill_iteration s pulls pos_ns = accept_frame s f pos_ns ∧
        (accept_frame s f pos_ns).head_fid = s.head_fid + 1 ∧
        (accept_frame s f pos_ns).frame_buffer (s.head_fid % s.capacity) = f ∧
        (accept_frame s f pos_ns).frame_position_us (s.head_fid % s.capacity)
          = pos_ns / 1000 ∧
        (accept_frame s f pos_ns).dev_color_fid = f.fid) ∧
    (resolvePull s.dev_color_fid pulls = none →
        fill_iteration s pulls pos_ns = { s with is_eof := true }) := by
  refine ⟨?_, ?_, ?_⟩
  · intro g rest hg
    have hng : ¬ s.dev_color_fid < g.fid := by omega
    simp [fill_iteration, resolvePull, hng]
  · intro f hf
    refine ⟨resolvePull_some_lt _ _ _ hf, ?_, rfl, ?_, ?_, rfl⟩
    · simp [fill_iteration, hf]
    · simp [accept_frame]
    · simp [accept_frame]
  · intro h
    simp [fill_iteration, h]

/-- C3 witness: on the demo session the source's first delivery (id 1 > 0)
is accepted. -/
theorem fill_iteration_spec_witness :
    fill_iteration demoOpen [pullDemo] 2000 = accept_frame demoOpen pullDemo 2000 :=
  ((fill_iteration_spec demoOpen [pullDemo] 2000).2.1 pullDemo (by decide)).2.1

/-- C4: `IsEOF` is true iff the producer has signalled end-of-stream and
every accepted frame has been consumed; in particular it is false whenever
`tail < head`. -/
theorem isEOF_iff (s : RSBagReader) :
    (IsEOF s = true ↔ s.is_eof = true ∧ s.tail_fid = s.head_fid) ∧
    (s.tail_fid < s.head_fid → IsEOF s = false) := by
  unfold IsEOF
  constructor
  · simp
  · intro h
    have hne : s.tail_fid ≠ s.head_fid := Nat.ne_of_lt h
    simp [hne]

/-- C4 witness: with one unconsumed frame buffered, `IsEOF` reports false. -/
theorem isEOF_iff_witness :
    demoOpen.tail_fid < demoOpen.head_fid ∧ IsEOF demoOpen = false :=
  ⟨by decide, (isEOF_iff demoOpen).2 (by decide)⟩

/-- C5: on an open session, once the spin wait has exited, `NextFrame`
returns the "no more frames" sentinel (not an error) with the state — in
particular both counters — unchanged when `tail = head` and end-of-stream
is set; in every other case it returns the frame in slot
`tail mod capacity` and increments `tail` by exactly one (leaving `head`
and the ring untouched). -/
theorem nextFrame_spec (s : RSBagReader)
    (hopen : s.is_opened = true)
    (_hexit : s.is_eof = true ∨ s.tail_fid ≠ s.head_fid) :
    (s.is_eof = true ∧ s.tail_fid = s.head_fid →
        NextFrame s = (none, s) ∧ NextFrameChecked s = Except.ok (none, s)) ∧
    (s.tail_fid ≠ s.head_fid →
        (NextFrame s).1 = some (s.frame_buffer (s.tail_fid % s.capacity)) ∧
        (NextFrame s).2.tail_fid = s.tail_fid + 1 ∧
        (NextFrame s).2.head_fid = s.head_fid ∧
        (NextFrame s).2.frame_buffer = s.frame_buffer) := by
  constructor
  · rintro ⟨he, ht⟩
    have h1 : NextFrame s = (none, s) := by simp [NextFrame, he, ht]
    exact ⟨h1, by simp [NextFrameChecked, hopen, h1]⟩
  · intro hne
    have hcond : ¬ (s.is_eof = true ∧ s.tail_fid = s.head_fid) := fun h => hne h.2
    simp [NextFrame, hcond]

/-- C5 witness: consuming the one buffered frame advances `tail` to 1. -/
theorem nextFrame_spec_witness :
    (NextFrame demoOpen).2.tail_fid = demoOpen.tail_fid + 1 :=
  ((nextFrame_spec demoOpen rfl (Or.inr (by decide))).2 (by decide)).2.1

/-- C6: `SeekTimestamp` with a timestamp at or beyond the stream duration
returns `false` on an open session and changes nothing; in particular
`GetTimestamp` yields the same value before and after. -/
theorem seekTimestamp_out_of_range (s : RSBagReader) (t : Nat) (env : OpenEnv)
    (hopen : s.is_opened = true) (hge : s.stream_length_usec ≤ t) :
    SeekTimestamp s t env = (false, s) ∧
    GetTimestamp (SeekTimestamp s t env).2 = GetTimestamp s := by
  have h1 : SeekTimestamp s t env = (false, s) := by
    simp [SeekTimestamp, hopen, hge]
  exact ⟨h1, by rw [h1]⟩

/-- C6 witness: seeking exactly to the stream duration fails and leaves
the demo state intact. -/
theorem seekTimestamp_out_of_range_witness :
    SeekTimestamp demoOpen 1000000 seekDemoEnvOk = (false, demoOpen) :=
  (seekTimestamp_out_of_range demoOpen 1000000 seekDemoEnvOk rfl (by decide)).1

/-- C7 counterexample: on the open demo session, an in-range
`SeekTimestamp 5` whose underlying pipe restart fails still returns
`true`, and leaves the session closed — the return value does not report
the restart failure, and the state changed although the full restart did
not happen. -/
theorem seekTimestamp_reports_success_on_failed_restart :
    demoOpen.is_opened = true ∧
    (5 : Nat) < demoOpen.stream_length_usec ∧
    (SeekTimestamp demoOpen 5 seekDemoEnvFail).1 = true ∧
    (SeekTimestamp demoOpen 5 seekDemoEnvFail).2.is_opened = false :=
  ⟨rfl, by decide, rfl, rfl⟩

/-- C7 amended: for every in-range timestamp on an open session,
`SeekTimestamp` closes the current session and calls `Open` at offset `t`,
returning `true` unconditionally (ignoring `Open`'s result): when the pipe
restart succeeds the session is fully restarted — counters and the
duplicate-tracking id reset to zero, `is_eof` cleared, metadata re-derived,
fresh producer started at offset `t`; when it fails the session is left
closed. -/
theorem seekTimestamp_in_range_restart (s : RSBagReader) (t : Nat) (env : OpenEnv)
    (hopen : s.is_opened = true) (hlt : t < s.stream_length_usec) :
    (SeekTimestamp s t env).1 = true ∧
    (env.pipe_start_ok = true →
        (SeekTimestamp s t env).2.is_opened = true ∧
        (SeekTimestamp s t env).2.head_fid = 0 ∧
        (SeekTimestamp s t env).2.tail_fid = 0 ∧
        (SeekTimestamp s t env).2.is_eof = false ∧
        (SeekTimestamp s t env).2.dev_color_fid = 0 ∧
        (SeekTimestamp s t env).2.stream_length_usec = env.stream_length_usec ∧
        (SeekTimestamp s t env).2.fps = env.fps ∧
        (SeekTimestamp s t env).2.producer_start_us = t) ∧
    (env.pipe_start_ok = false → (SeekTimestamp s t env).2 = Close s) := by
  have hno : ¬ s.stream_length_usec ≤ t := by omega
  have hseek : SeekTimestamp s t env = (true, (Open s s.filename t env).2) := by
    simp [SeekTimestamp, hopen, hno]
  rw [hseek]
  refine ⟨rfl, ?_, ?_⟩
  · intro hp
    simp [Open, hopen, hp, producer_start, Close]
  · intro hp
    simp [Open, hopen, hp]

/-- C7 amended witness: an in-range seek with a healthy pipe returns
`true` and resets `head` to zero. -/
theorem seekTimestamp_in_range_restart_witness :
    (SeekTimestamp demoOpen 5 seekDemoEnvOk).1 = true ∧
    (SeekTimestamp demoOpen 5 seekDemoEnvOk).2.head_fid = 0 :=
  ⟨(seekTimestamp_in_range_restart demoOpen 5 seekDemoEnvOk rfl (by decide)).1,
   ((seekTimestamp_in_range_restart demoOpen 5 seekDemoEnvOk rfl (by decide)).2.1
      rfl).2.1⟩

/-- C8: the paused producer's wake predicate is false — so the wait stays
blocked — whenever the session is open and strictly more than
`capacity / REFILL_FACTOR` unread frames remain; and any wake-up implies
the session is closing or the buffer has drained to at most
`capacity / REFILL_FACTOR` unread frames. -/
theorem paused_producer_wake_condition (s : RSBagReader) (refill_factor : Nat) :
    (s.is_opened = true → s.capacity / refill_factor < s.head_fid - s.tail_fid →
        need_frames_pred s refill_factor = false) ∧
    (need_frames_pred s refill_factor = true →
        s.is_opened = false ∨ s.head_fid - s.tail_fid ≤ s.capacity / refill_factor) := by
  unfold need_frames_pred
  constructor
  · intro ho hgt
    simp only [ho, Bool.not_true, Bool.false_or, decide_eq_false_iff_not]
    generalize s.capacity / refill_factor = d at hgt ⊢
    omega
  · intro h
    simp only [Bool.or_eq_true, Bool.not_eq_true', decide_eq_true_eq] at h
    rcases h with h | h
    · exact Or.inl h
    · refine Or.inr ?_
      generalize s.capacity / refill_factor = d at h ⊢
      omega

/-- C8 witness: capacity 4, refill factor 2, 4 unread frames: the wake
predicate is false, so the paused producer stays blocked. -/
theorem paused_producer_wake_condition_witness :
    need_frames_pred pausedDemo 2 = false :=
  (paused_producer_wake_condition pausedDemo 2).1 rfl (by decide)

/-- C9: the catch clauses of `fill_frame_buffer` only format and log a
diagnostic: after an `rs2::error` on the very first pull of a fresh open
session, the state is returned unchanged — `is_eof` is still `false` and
`IsEOF` still reports `false` — contradicting the claim that producer
errors are converted into the end-of-stream signal. -/
theorem fill_error_does_not_set_eof :
    (fill_frame_buffer_catch demoOpen
        (FillError.realsense "try_wait_for_frames" "")).1 = demoOpen ∧
    (fill_frame_buffer_catch demoOpen
        (FillError.realsense "try_wait_for_frames" "")).1.is_eof = false ∧
    IsEOF (fill_frame_buffer_catch demoOpen
        (FillError.realsense "try_wait_for_frames" "")).1 = false :=
  ⟨rfl, rfl, rfl⟩

/-- C10 counterexample: `NextFrame` on a never-opened reader raises via
`LogError` (which does not return to its caller) instead of performing a
no-op or sentinel return. -/
theorem nextFrame_before_open_raises :
    (mkReader 16).is_opened = false ∧
    NextFrameChecked (mkReader 16)
      = Except.error "Null file handler. Please call Open()." :=
  ⟨rfl, rfl⟩

/-- C10 amended: before `Open`, `SeekTimestamp` logs a warning and returns
`false` with no state change and `GetTimestamp` logs a warning and returns
the `UINT64_MAX` sentinel, but `NextFrame` raises an error via `LogError`
rather than performing a no-op or sentinel return. -/
theorem before_open_usage (s : RSBagReader) (t : Nat) (env : OpenEnv)
    (h : s.is_opened = false) :
    GetTimestamp s = UINT64_MAX ∧
    SeekTimestamp s t env = (false, s) ∧
    NextFrameChecked s = Except.error "Null file handler. Please call Open()." := by
  refine ⟨?_, ?_, ?_⟩ <;> simp [GetTimestamp, SeekTimestamp, NextFrameChecked, h]

/-- C10 amended witness: on a fresh reader `GetTimestamp` yields the
sentinel. -/
theorem before_open_usage_witness :
    GetTimestamp (mkReader 4) = UINT64_MAX :=
  (before_open_usage (mkReader 4) 0 seekDemoEnvOk rfl).1

/-- Two counters within a capacity window never alias the same ring slot. -/
theorem slot_mod_ne (cap i j : Nat) (hij : i < j) (hsub : j - i < cap) :
    ¬ j % cap = i % cap := by
  intro h
  have hmod : Nat.ModEq cap i j := h.symm
  have hdvd : cap ∣ j - i := (Nat.modEq_iff_dvd' (Nat.le_of_lt hij)).mp hmod
  have hle : cap ≤ j - i := Nat.le_of_dvd (by omega) hdvd
  omega

theorem step_preserves_inv (s s' : RSBagReader) (hstep : Step s s') (hinv : Inv s) :
    Inv s' := by
  obtain ⟨h1, h2, h3, h4, h5, h6, h7⟩ := hinv
  cases hstep with
  | accept f pos_ns hopen heof hroom hnew =>
    refine ⟨?_, ?_, ?_, ?_, ?_, ?_, ?_⟩
    · show s.tail_fid ≤ s.head_fid + 1
      omega
    · show s.head_fid + 1 ≤ s.tail_fid + s.capacity
      omega
    · show (s.accepted ++ [f]).length = s.head_fid + 1
      simp [h3]
    · show s.returned = (s.accepted ++ [f]).take s.tail_fid
      rw [List.take_append_of_le_length (by omega)]
      exact h4
    · intro i hti hih
      have hti' : s.tail_fid ≤ i := hti
      have hih' : i < s.head_fid + 1 := hih
      show (s.accepted ++ [f])[i]? =
        some (Function.update s.frame_buffer (s.head_fid % s.capacity) f (i % s.capacity))
      rcases Nat.lt_or_ge i s.head_fid with hlt | hge
      · rw [List.getElem?_append_left (by omega),
          Function.update_noteq (Ne.symm (slot_mod_ne s.capacity i s.head_fid hlt
            (by omega)))]
        exact h5 i hti' hlt
      · have hieq : i = s.head_fid := by omega
        subst hieq
        rw [← h3, List.getElem?_concat_length, h3, Function.update_same]
    · show (s.accepted ++ [f]).Pairwise (fun a b => a.fid < b.fid)
      rw [List.pairwise_append]
      refine ⟨h6, List.pairwise_singleton _ _, ?_⟩
      intro a ha b hb
      have hbf : b = f := by simpa using hb
      subst hbf
      have := h7 a ha
      omega
    · intro g hg
      show g.fid ≤ f.fid
      rcases List.mem_append.mp hg with hga | hgf
      · have := h7 g hga
        omega
      · have : g = f := by simpa using hgf
        subst this
        exact Nat.le_refl _
  | set_eof hopen heof hroom =>
    exact ⟨h1, h2, h3, h4, h5, h6, h7⟩
  | consume hopen hne =>
    refine ⟨?_, ?_, h3, ?_, ?_, h6, h7⟩
    · show s.tail_fid + 1 ≤ s.head_fid
      omega
    · show s.head_fid ≤ s.tail_fid + 1 + s.capacity
      omega
    · show s.returned ++ [s.frame_buffer (s.tail_fid % s.capacity)]
        = s.accepted.take (s.tail_fid + 1)
      rw [List.take_succ, h5 s.tail_fid (Nat.le_refl _) (by omega), h4]
      rfl
    · intro i hti hih
      have hti' : s.tail_fid + 1 ≤ i := hti
      have hih' : i < s.head_fid := hih
      exact h5 i (by omega) hih'

theorem inv_sessionStart (cap : Nat) (fname : String) (start_us : Nat)
    (env : OpenEnv) : Inv (SessionStart cap fname start_us env) := by
  unfold SessionStart Open mkReader Close producer_start Inv
  by_cases hp : env.pipe_start_ok <;> simp [hp]

theorem reachable_inv (cap start_us : Nat) (fname : String) (env : OpenEnv)
    (s : RSBagReader) (h : Reachable (SessionStart cap fname start_us env) s) :
    Inv s := by
  have h' : Relation.ReflTransGen Step (SessionStart cap fname start_us env) s := h
  clear h
  induction h' with
  | refl => exact inv_sessionStart cap fname start_us env
  | tail _ hstep ih => exact step_preserves_inv _ _ hstep ih

/-- C1: in every state reachable during an open session — where the
producer accepts only under the window guard `head < tail + capacity` and
the consumer reads only when `tail ≠ head` — the counters satisfy
`0 ≤ head − tail ≤ capacity`: the tail never passes the head and the
unread window never exceeds capacity. -/
theorem head_tail_window_invariant (cap start_us : Nat) (fname : String)
    (env : OpenEnv) (s : RSBagReader)
    (h : Reachable (SessionStart cap fname start_us env) s) :
    s.tail_fid ≤ s.head_fid ∧ s.head_fid - s.tail_fid ≤ s.capacity := by
  obtain ⟨h1, h2, -, -, -, -, -⟩ := reachable_inv cap start_us fname env s h
  omega

/-- C1 witness: after the producer accepts one frame in the sample
session, the window bound holds. -/
theorem head_tail_window_invariant_witness :
    demoStep1.tail_fid ≤ demoStep1.head_fid ∧
    demoStep1.head_fid - demoStep1.tail_fid ≤ demoStep1.capacity :=
  head_tail_window_invariant 16 0 "capture.bag" seekDemoEnvOk demoStep1
    (Relation.ReflTransGen.single
      (Step.accept demoStart pullDemo 2000 rfl rfl (by decide) (by decide)))

/-- C2: in every state reachable during an open session, the frames
returned by `NextFrame` are exactly the first `tail` frames accepted by
the producer, in acceptance order — no frame twice, none skipped — and
their device sequence ids are strictly increasing, hence pairwise
distinct. -/
theorem frames_returned_in_order (cap start_us : Nat) (fname : String)
    (env : OpenEnv) (s : RSBagReader)
    (h : Reachable (SessionStart cap fname start_us env) s) :
    s.returned = s.accepted.take s.tail_fid ∧
    s.returned.Pairwise (fun a b => a.fid < b.fid) ∧
    s.returned.Pairwise (fun a b => a.fid ≠ b.fid) := by
  obtain ⟨-, -, -, h4, -, h6, -⟩ := reachable_inv cap start_us fname env s h
  have hp : s.returned.Pairwise (fun a b => a.fid < b.fid) := by
    rw [h4]
    exact List.Pairwise.sublist (List.take_sublist _ _) h6
  exact ⟨h4, hp, hp.imp fun hlt => Nat.ne_of_lt hlt⟩

/-- C2 witness: after one accepted and one consumed frame in the sample
session, the returned history is the accepted history up to `tail`. -/
theorem frames_returned_in_order_witness :
    demoStep2.returned = demoStep2.accepted.take demoStep2.tail_fid ∧
    demoStep2.returned.Pairwise (fun a b => a.fid < b.fid) ∧
    demoStep2.returned.Pairwise (fun a b => a.fid ≠ b.fid) :=
  frames_returned_in_order 16 0 "capture.bag" seekDemoEnvOk demoStep2
    (Relation.ReflTransGen.tail
      (Relation.ReflTransGen.single
        (Step.accept demoStart pullDemo 2000 rfl rfl (by decide) (by decide)))
      (Step.consume demoStep1 rfl (by decide)))

end RSBagReader
